import Mathlib

/-!
Shallow embedding of the webthing-rust Thing model (src/property.rs, src/event.rs,
src/action.rs, src/thing.rs, src/server.rs) in Lean 4, together with theorems
checking the repository specification against the code.

Conventions of the embedding:
  * `serde_json::Value` becomes the inductive `JVal`; a `serde_json::Number` is a
    `JNum`, keeping serde's three internal variants (u64, negative i64, f64);
    the f64 payload is modelled as a rational.
  * `serde_json::Map<String, Value>` becomes an association list `Jobj` with
    insert-replaces-or-appends semantics (serde's map has unique keys; the
    BTreeMap ordering itself is not observed by any claim).
  * `Rust` methods that mutate `&mut self` become functions returning the new
    value; methods whose only effect is pushing messages to queues return the
    updated owner; `Action::notify_all` emissions are returned as a list of
    descriptions (the payload handed to each registered observer).
  * A reachable `unwrap()` on `None` is modelled by an explicit `panic` outcome
    (`VRes.panic`, `ThingRes.panic`, `HttpResponse.panic`).
  * `utils::timestamp()` reads the wall clock; it is passed in as a `now`
    argument wherever the source calls it.
-/

set_option autoImplicit false

namespace WebThing

/-- Model of serde_json::Number: u64, negative i64, or f64 (as a rational).
serde_json only builds the `int` variant for negative integers. -/
inductive JNum where
  | uint (n : Nat)
  | int (i : Int)
  | float (q : Rat)
  deriving DecidableEq, Repr

/-- Model of serde_json::Value. -/
inductive JVal where
  | null
  | bool (b : Bool)
  | num (n : JNum)
  | str (s : String)
  | arr (elts : List JVal)
  | obj (fields : List (String × JVal))
  deriving Repr

/-- JSON objects: serde_json::Map as an association list. -/
abbrev Jobj := List (String × JVal)

/-- Structural equality on JSON values (Rust PartialEq on serde_json::Value;
numbers compare by variant, as serde's three-variant Number does). -/
def JVal.beq : JVal → JVal → Bool
  | .null, .null => true
  | .bool a, .bool b => a == b
  | .num a, .num b => a == b
  | .str a, .str b => a == b
  | .arr [], .arr [] => true
  | .arr (x :: xs), .arr (y :: ys) => x.beq y && (JVal.arr xs).beq (JVal.arr ys)
  | .obj [], .obj [] => true
  | .obj ((k1, v1) :: xs), .obj ((k2, v2) :: ys) =>
      k1 == k2 && v1.beq v2 && (JVal.obj xs).beq (JVal.obj ys)
  | _, _ => false

/-- serde_json::Map::get (first matching key of the association list). -/
def alGet {α : Type} : List (String × α) → String → Option α
  | [], _ => none
  | (k, v) :: rest, key => if k = key then some v else alGet rest key

/-- serde_json::Map::contains_key. -/
def alContains {α : Type} (m : List (String × α)) (key : String) : Bool :=
  (alGet m key).isSome

/-- serde_json::Map::insert: replace the value under an existing key, else add
the entry. -/
def jobjInsert : Jobj → String → JVal → Jobj
  | [], k, v => [(k, v)]
  | (k0, v0) :: rest, k, v =>
      if k0 = k then (k, v) :: rest else (k0, v0) :: jobjInsert rest k v

/-- Update the entry under `key` (a HashMap value mutated in place in the
source; keys are unique, so at most one entry changes). -/
def alUpdate {α : Type} : List (String × α) → String → (α → α) → List (String × α)
  | [], _, _ => []
  | (k0, v0) :: rest, key, f =>
      (if k0 = key then (k0, f v0) else (k0, v0)) :: alUpdate rest key f

namespace JVal

/-- Value::is_null. -/
def is_null : JVal → Bool
  | .null => true
  | _ => false

/-- Value::is_boolean. -/
def is_boolean : JVal → Bool
  | .bool _ => true
  | _ => false

/-- Value::is_object. -/
def is_object : JVal → Bool
  | .obj _ => true
  | _ => false

/-- Value::is_array. -/
def is_array : JVal → Bool
  | .arr _ => true
  | _ => false

/-- Value::is_number. -/
def is_number : JVal → Bool
  | .num _ => true
  | _ => false

/-- Value::is_string. -/
def is_string : JVal → Bool
  | .str _ => true
  | _ => false

/-- Value::is_u64: true exactly on the u64 variant of Number. -/
def is_u64 : JVal → Bool
  | .num (.uint _) => true
  | _ => false

/-- Number::as_f64 (total on serde numbers). -/
def numToF64 : JNum → Rat
  | .uint n => (n : Rat)
  | .int i => (i : Rat)
  | .float q => q

/-- Value::as_f64. -/
def as_f64 : JVal → Option Rat
  | .num n => some (numToF64 n)
  | _ => none

/-- Value::as_str. -/
def as_str : JVal → Option String
  | .str s => some s
  | _ => none

/-- Value::as_bool. -/
def as_bool : JVal → Option Bool
  | .bool b => some b
  | _ => none

/-- Value::as_array. -/
def as_array : JVal → Option (List JVal)
  | .arr xs => some xs
  | _ => none

/-- Value::get on an object (None on every other variant). -/
def getKey : JVal → String → Option JVal
  | .obj fields, k => alGet fields k
  | _, _ => none

end JVal

/-- Outcome of Property::validate_value: Ok, an Err message, or a reachable
unwrap-of-None panic. -/
inductive VRes where
  | ok
  | err (msg : String)
  | panic
  deriving DecidableEq, Repr

/-- Sequencing of the early-return blocks of validate_value: the first non-Ok
outcome wins. -/
def vseq : VRes → VRes → VRes
  | .ok, r => r
  | .err e, _ => .err e
  | .panic, _ => .panic

/-- The "type" block of Property::validate_value (property.rs lines 18-43).
`description.get("type").unwrap().as_str().unwrap()` panics when the entry is
not a JSON string. -/
def checkType (d : Jobj) (v : JVal) : VRes :=
  if alContains d "type" then
    match alGet d "type" with
    | none => .panic
    | some t =>
      match t.as_str with
      | none => .panic
      | some ty =>
        match ty with
        | "null" => if !v.is_null then .err "Value must be null" else .ok
        | "boolean" => if !v.is_boolean then .err "Value must be a boolean" else .ok
        | "object" => if !v.is_object then .err "Value must be an object" else .ok
        | "array" => if !v.is_array then .err "Value must be an array" else .ok
        | "number" => if !v.is_number then .err "Value must be a number" else .ok
        | "integer" => if !v.is_u64 then .err "Value must be an integer" else .ok
        | "string" => if !v.is_string then .err "Value must be a string" else .ok
        | _ => .ok
  else .ok

/-- The "readOnly" block (property.rs lines 45-50): as_bool is checked with
is_some before the unwrap, so this block cannot panic. -/
def checkReadOnly (d : Jobj) : VRes :=
  if alContains d "readOnly" then
    match alGet d "readOnly" with
    | none => .panic
    | some rv =>
      let b := rv.as_bool
      if b.isSome && b.getD false then .err "Read-only property" else .ok
  else .ok

/-- The "minimum" block (property.rs lines 52-58): both
`get("minimum").unwrap().as_f64().unwrap()` and `value.as_f64().unwrap()` can
panic. -/
def checkMinimum (d : Jobj) (v : JVal) : VRes :=
  if alContains d "minimum" then
    match alGet d "minimum" with
    | none => .panic
    | some m =>
      match m.as_f64 with
      | none => .panic
      | some minimum =>
        match v.as_f64 with
        | none => .panic
        | some x => if x < minimum then .err "Value less than minimum" else .ok
  else .ok

/-- The "maximum" block (property.rs lines 60-66). -/
def checkMaximum (d : Jobj) (v : JVal) : VRes :=
  if alContains d "maximum" then
    match alGet d "maximum" with
    | none => .panic
    | some m =>
      match m.as_f64 with
      | none => .panic
      | some maximum =>
        match v.as_f64 with
        | none => .panic
        | some x => if maximum < x then .err "Value greater than maximum" else .ok
  else .ok

/-- The "enum" block (property.rs lines 68-73): `as_array().unwrap()` panics
when the enum entry is not an array. -/
def checkEnum (d : Jobj) (v : JVal) : VRes :=
  if alContains d "enum" && alContains d "type" then
    match alGet d "enum" with
    | none => .panic
    | some ev =>
      match ev.as_array with
      | none => .panic
      | some e =>
        if decide (0 < e.length) && !(e.any (fun x => JVal.beq x v)) then
          .err "Invalid enum value"
        else .ok
  else .ok

/-- Property::validate_value (property.rs lines 15-76): the five blocks in
source order, each an early return on Err (or a panic). -/
def validate_value (d : Jobj) (v : JVal) : VRes :=
  vseq (checkType d v)
    (vseq (checkReadOnly d)
      (vseq (checkMinimum d v)
        (vseq (checkMaximum d v) (checkEnum d v))))

/-- BaseProperty (property.rs lines 120-127). The value forwarder is the
embedder-supplied `ValueForwarder::set_value`, a function from the new value to
Ok(device value) or a static error. -/
structure BaseProperty where
  name : String
  last_value : JVal
  value_forwarder : Option (JVal → Except String JVal)
  href_prefix : String
  href : String
  metadata : Jobj

/-- BaseProperty::new (property.rs lines 136-157). -/
def BaseProperty.new (name : String) (initial_value : JVal)
    (value_forwarder : Option (JVal → Except String JVal))
    (metadata : Option Jobj) : BaseProperty :=
  { name := name
    last_value := initial_value
    value_forwarder := value_forwarder
    href_prefix := ""
    href := "/properties/" ++ name
    metadata := metadata.getD [] }

/-- Property::get_href for BaseProperty. -/
def BaseProperty.get_href (p : BaseProperty) : String :=
  p.href_prefix ++ p.href

/-- Property::set_href_prefix for BaseProperty. -/
def BaseProperty.set_href_prefix (p : BaseProperty) (pre : String) : BaseProperty :=
  { p with href_prefix := pre }

/-- Property::get_value for BaseProperty. -/
def BaseProperty.get_value (p : BaseProperty) : JVal :=
  p.last_value

/-- BaseProperty::set_value (property.rs lines 181-200): validate first and
return the error unchanged; then either forward (the forwarder's value becomes
the cache) or store directly. The returned property is the state after the
call (unchanged on Err; meaningless on panic). -/
def BaseProperty.set_value (p : BaseProperty) (value : JVal) : VRes × BaseProperty :=
  match validate_value p.metadata value with
  | .err e => (.err e, p)
  | .panic => (.panic, p)
  | .ok =>
    match p.value_forwarder with
    | some vf =>
      match vf value with
      | .ok v => (.ok, { p with last_value := v })
      | .error e => (.err e, p)
    | none => (.ok, { p with last_value := value })

/-- BaseEvent (event.rs lines 43-48). The owning-Thing field is dropped: it is
never read by any code under test. -/
structure BaseEvent where
  name : String
  data : Option JVal
  time : String

/-- Event::new for BaseEvent (event.rs lines 52-59); `now` stands for
`utils::timestamp()`. -/
def BaseEvent.new (name : String) (data : Option JVal) (now : String) : BaseEvent :=
  { name := name, data := data, time := now }

/-- Event::get_name. -/
def BaseEvent.get_name (e : BaseEvent) : String := e.name

/-- Event::get_data. -/
def BaseEvent.get_data (e : BaseEvent) : Option JVal := e.data

/-- Event::get_time. -/
def BaseEvent.get_time (e : BaseEvent) : String := e.time

/-- Event::as_event_description (event.rs lines 15-27): inner map with the
timestamp and optional data, then
`description.insert("name".to_string(), json!(inner))` - note the literal key. -/
def as_event_description (e : BaseEvent) : Jobj :=
  let inner : Jobj := jobjInsert [] "timestamp" (.str e.get_time)
  let inner : Jobj :=
    match e.get_data with
    | some d => jobjInsert inner "data" d
    | none => inner
  jobjInsert [] "name" (.obj inner)

/-- BaseAction (action.rs lines 97-107). The observers field is dropped: the
payloads `notify_all` hands each observer are returned instead as a trace. -/
structure BaseAction where
  id : String
  name : String
  input : Option Jobj
  href_prefix : String
  href : String
  status : String
  time_requested : String
  time_completed : Option String

/-- Action::new for BaseAction (action.rs lines 116-134); `now` stands for
`utils::timestamp()`. -/
def BaseAction.new (id : String) (name : String) (input : Option Jobj)
    (now : String) : BaseAction :=
  { id := id
    name := name
    input := input
    href_prefix := ""
    href := "/actions/" ++ name ++ "/" ++ id
    status := "created"
    time_requested := now
    time_completed := none }

/-- Action::get_href for BaseAction (action.rs lines 154-156). -/
def BaseAction.get_href (a : BaseAction) : String :=
  a.href_prefix ++ a.href

/-- Action::set_href_prefix for BaseAction (action.rs lines 139-141). -/
def BaseAction.set_href_prefix (a : BaseAction) (pre : String) : BaseAction :=
  { a with href_prefix := pre }

/-- The inner map Action::as_action_description builds (action.rs lines
35-49): href, timeRequested, status, optional input and timeCompleted. -/
def BaseAction.descInner (a : BaseAction) : Jobj :=
  let inner : Jobj := jobjInsert [] "href" (.str a.get_href)
  let inner : Jobj := jobjInsert inner "timeRequested" (.str a.time_requested)
  let inner : Jobj := jobjInsert inner "status" (.str a.status)
  let inner : Jobj :=
    match a.input with
    | some i => jobjInsert inner "input" (.obj i)
    | none => inner
  match a.time_completed with
  | some t => jobjInsert inner "timeCompleted" (.str t)
  | none => inner

/-- Action::as_action_description (action.rs lines 34-53): the inner map,
keyed by the action's name (line 51). -/
def BaseAction.as_action_description (a : BaseAction) : Jobj :=
  jobjInsert [] a.name (.obj a.descInner)

/-- BaseAction::finish (action.rs lines 193-197): set status completed, set
time_completed, notify_all. Returns the new state and the notify_all trace. -/
def BaseAction.finish (a : BaseAction) (now : String) : BaseAction × List Jobj :=
  let a1 := { a with status := "completed", time_completed := some now }
  (a1, [a1.as_action_description])

/-- BaseAction::cancel (action.rs line 190): the default is a no-op taking
`&self`. -/
def BaseAction.cancel (_a : BaseAction) : Unit := ()

/-- BaseAction::start (action.rs lines 179-184): set status pending,
notify_all, perform_action (default no-op), then finish. Returns the new state
and the concatenated notify_all trace. -/
def BaseAction.start (a : BaseAction) (now : String) : BaseAction × List Jobj :=
  let a1 := { a with status := "pending" }
  let n1 := a1.as_action_description
  let r := a1.finish now
  (r.1, n1 :: r.2)

/-- AvailableAction (thing.rs lines 904-906). -/
structure AvailableAction where
  metadata : Jobj

/-- AvailableEvent (thing.rs lines 949-952): metadata plus the per-event
subscriber map ws_id -> queued messages. A queue entry models the serialized
JSON text of one message. -/
structure AvailableEvent where
  metadata : Jobj
  subscribers : List (String × List JVal)

/-- AvailableAction::validate_action_input (thing.rs lines 926-945). The
valico JSON-Schema engine is external to this repository; `sv schema input`
abstracts "compile_and_return succeeded and the input validates", with a
compile failure (validator None, which accepts everything) folded into `sv`.
With no "input" key in the metadata there is no validator and every input is
accepted. -/
def validate_action_input (metadata : Jobj)
    (sv : JVal → Option JVal → Bool) (input : Option JVal) : Bool :=
  match alGet metadata "input" with
  | some schema => sv schema input
  | none => true

/-- BaseThing (thing.rs lines 271-284). HashMaps become association lists;
each subscriber queue entry models the serialized JSON text of one message. -/
structure BaseThing where
  context : String
  type_ : List String
  name : String
  description : String
  properties : List (String × BaseProperty)
  available_actions : List (String × AvailableAction)
  available_events : List (String × AvailableEvent)
  actions : List (String × List BaseAction)
  events : List BaseEvent
  subscribers : List (String × List JVal)
  href_prefix : String
  ui_href : Option String

/-- The notification messages of thing.rs lines 785-789, 801-804 and 820-823:
`{"messageType": mt, "data": data}`. -/
def mkMessage (mt : String) (data : JVal) : JVal :=
  .obj [("messageType", .str mt), ("data", data)]

/-- BaseThing::property_notify (thing.rs lines 784-795): push the
propertyStatus message onto every main subscriber queue. -/
def BaseThing.property_notify (t : BaseThing) (name : String) (value : JVal) :
    BaseThing :=
  let message := mkMessage "propertyStatus" (.obj [(name, value)])
  { t with subscribers := t.subscribers.map (fun q => (q.1, q.2 ++ [message])) }

/-- BaseThing::action_notify (thing.rs lines 800-809): push the actionStatus
message onto every main subscriber queue. -/
def BaseThing.action_notify (t : BaseThing) (action : Jobj) : BaseThing :=
  let message := mkMessage "actionStatus" (.obj action)
  { t with subscribers := t.subscribers.map (fun q => (q.1, q.2 ++ [message])) }

/-- BaseThing::event_notify (thing.rs lines 815-831): return unchanged unless
the name is an available event; otherwise push the event message onto every
queue of that event's subscribers. -/
def BaseThing.event_notify (t : BaseThing) (name : String) (event : Jobj) :
    BaseThing :=
  if !alContains t.available_events name then t
  else
    let message := mkMessage "event" (.obj event)
    { t with
      available_events :=
        alUpdate t.available_events name
          (fun ae =>
            { ae with
              subscribers := ae.subscribers.map (fun q => (q.1, q.2 ++ [message])) }) }

/-- BaseThing::add_event (thing.rs lines 649-652): notify first, then push the
event onto the log. -/
def BaseThing.add_event (t : BaseThing) (e : BaseEvent) : BaseThing :=
  let t1 := t.event_notify e.get_name (as_event_description e)
  { t1 with events := t1.events ++ [e] }

/-- BaseThing::get_action (thing.rs lines 627-644): the first action of the
per-name list whose id matches. -/
def BaseThing.get_action (t : BaseThing) (action_name : String)
    (action_id : String) : Option BaseAction :=
  match alGet t.actions action_name with
  | some entry => entry.find? (fun a => a.id == action_id)
  | none => none

/-- In the source an action is shared behind an Arc<RwLock>; a mutation through
the Arc returned by get_action is a write-back into the owning list. -/
def BaseThing.updateActionIn (t : BaseThing) (action_name : String)
    (action_id : String) (a1 : BaseAction) : BaseThing :=
  { t with
    actions :=
      alUpdate t.actions action_name
        (fun l => l.map (fun a => if a.id == action_id then a1 else a)) }

/-- BaseThing::start_action (thing.rs lines 837-847): look up, drive start,
emit actionStatus with the started action's description, then perform_action
(the default no-op). -/
def BaseThing.start_action (t : BaseThing) (name : String) (id : String)
    (now : String) : BaseThing :=
  match t.get_action name id with
  | some a =>
      let a1 := (a.start now).1
      let t1 := t.updateActionIn name id a1
      t1.action_notify a1.as_action_description
  | none => t

/-- BaseThing::remove_action (thing.rs lines 707-720): look up; on a hit call
cancel, then retain only actions of that name with a different id; the third
component records the actions on which cancel() was invoked. -/
def BaseThing.remove_action (t : BaseThing) (action_name : String)
    (action_id : String) : Bool × BaseThing × List BaseAction :=
  match t.get_action action_name action_id with
  | some a =>
      (true,
        { t with
          actions :=
            alUpdate t.actions action_name
              (fun l => l.filter (fun x => !(x.id == action_id))) },
        [a])
  | none => (false, t, [])

/-- BaseThing::set_href_prefix (thing.rs lines 446-458): set the thing's own
prefix, then cascade it to every property and every action. -/
def BaseThing.set_href_prefix (t : BaseThing) (pre : String) : BaseThing :=
  { t with
    href_prefix := pre
    properties := t.properties.map (fun kv => (kv.1, BaseProperty.set_href_prefix kv.2 pre))
    actions :=
      t.actions.map (fun kv => (kv.1, kv.2.map (fun a => a.set_href_prefix pre))) }

/-- BaseThing::get_property (thing.rs lines 593-599). -/
def BaseThing.get_property (t : BaseThing) (property_name : String) :
    Option JVal :=
  (alGet t.properties property_name).map (fun p => p.get_value)

/-- Outcome of a Thing operation that can fail or reach a panic. -/
inductive ThingRes where
  | ok (t : BaseThing)
  | err (e : String)
  | panic

/-- Thing::set_property, the trait default (thing.rs lines 124-146): find the
property, set its value, and on success notify with the caller-supplied value
(the source clones `value` before handing it to set_value and notifies with
the original). -/
def BaseThing.set_property (t : BaseThing) (property_name : String)
    (value : JVal) : ThingRes :=
  match alGet t.properties property_name with
  | none => .err "Property not found"
  | some prop =>
    match prop.set_value value with
    | (.ok, p1) =>
        let t1 := { t with properties := alUpdate t.properties property_name (fun _ => p1) }
        .ok (t1.property_notify property_name value)
    | (.err e, _) => .err e
    | (.panic, _) => .panic

/-- BaseThing::add_action (thing.rs lines 673-699): require the name among the
available actions, validate the input, set the action's href prefix, emit
actionStatus, and push onto the per-name list
(`self.actions.get_mut(&action_name).unwrap()` panics when the list is
missing). -/
def BaseThing.add_action (t : BaseThing) (sv : JVal → Option JVal → Bool)
    (action : BaseAction) (input : Option JVal) : ThingRes :=
  let action_name := action.name
  match alGet t.available_actions action_name with
  | none => .err "Action type not found"
  | some action_type =>
    if !validate_action_input action_type.metadata sv input then
      .err "Action input invalid"
    else
      let a1 := action.set_href_prefix t.href_prefix
      let t1 := t.action_notify a1.as_action_description
      match alGet t1.actions action_name with
      | none => .panic
      | some l =>
          .ok { t1 with actions := alUpdate t1.actions action_name (fun _ => l ++ [a1]) }

/-- HTTP responses the action handlers build (server.rs), plus an explicit
outcome for a reachable unwrap panic. -/
inductive HttpResponse where
  | ok (body : JVal)
  | created (body : JVal)
  | badRequest
  | notFound
  | noContent
  | panic
  deriving Repr

/-- The shared tail of both POST action handlers (server.rs lines 662-703 and
763-804): generate the action, add it to the thing (400 on error), read its
description entry under the request's action name
(`as_action_description().get(action_name).unwrap()`), start it, and reply 201
with that single-entry object. `gen` is the embedder's ActionGenerator
(thing reference dropped), `sv` the external schema engine, `now` the wall
clock for the timestamps taken while starting. -/
def postActionTail (thing : BaseThing) (gen : String → Option JVal → Option BaseAction)
    (sv : JVal → Option JVal → Bool) (now : String) (action_name : String)
    (action_params : JVal) : HttpResponse × Option BaseThing :=
  let input := action_params.getKey "input"
  match gen action_name input with
  | none => (.badRequest, some thing)
  | some action =>
    let id := action.id
    match thing.add_action sv action input with
    | .err _ => (.badRequest, some thing)
    | .panic => (.panic, some thing)
    | .ok thing1 =>
      match alGet action.as_action_description action_name with
      | none => (.panic, some thing1)
      | some d =>
        let response := JVal.obj [(action_name, d)]
        (.created response, some (thing1.start_action action_name id now))

/-- actions_handler_POST (server.rs lines 635-703): 404 for a missing thing,
400 for a non-object body or for a body whose key count differs from one, then
the shared tail on the single entry. -/
def actions_handler_POST (thing? : Option BaseThing)
    (gen : String → Option JVal → Option BaseAction)
    (sv : JVal → Option JVal → Bool) (now : String) (body : JVal) :
    HttpResponse × Option BaseThing :=
  match thing? with
  | none => (.notFound, none)
  | some thing =>
    match body with
    | .obj message =>
      match message with
      | [(action_name, action_params)] =>
          postActionTail thing gen sv now action_name action_params
      | _ => (.badRequest, some thing)
    | _ => (.badRequest, some thing)

/-- action_handler_POST (server.rs lines 726-804): as actions_handler_POST,
but 404 when the route carries no action name and 400 when the body's single
key differs from the route's action name. -/
def action_handler_POST (thing? : Option BaseThing) (action_name? : Option String)
    (gen : String → Option JVal → Option BaseAction)
    (sv : JVal → Option JVal → Bool) (now : String) (body : JVal) :
    HttpResponse × Option BaseThing :=
  match thing? with
  | none => (.notFound, none)
  | some thing =>
    match body with
    | .obj message =>
      match action_name? with
      | none => (.notFound, some thing)
      | some action_name =>
        match message with
        | [(key, action_params)] =>
            if key ≠ action_name then (.badRequest, some thing)
            else postActionTail thing gen sv now action_name action_params
        | _ => (.badRequest, some thing)
    | _ => (.badRequest, some thing)

/-! Concrete fixtures used to evaluate the embedded code. -/

/-- An event named "overheated" with no data. -/
def overheatedEvent : BaseEvent :=
  BaseEvent.new "overheated" none "2025-01-01T00:00:00+00:00"

/-- A thing with "overheated" registered as an available event, one subscriber
on that event, and one main subscriber. -/
def eventThing : BaseThing :=
  { context := "https://iot.mozilla.org/schemas"
    type_ := []
    name := "lamp"
    description := ""
    properties := []
    available_actions := []
    available_events := [("overheated", { metadata := [], subscribers := [("ws1", [])] })]
    actions := []
    events := []
    subscribers := [("main", [])]
    href_prefix := ""
    ui_href := none }

/-- A boolean-typed property with no forwarder. -/
def boolProp : BaseProperty :=
  BaseProperty.new "on" (JVal.bool true) none (some [("type", JVal.str "boolean")])

/-- A property whose metadata has a "minimum" but no "type". -/
def minOnlyProp : BaseProperty :=
  BaseProperty.new "level" (JVal.num (JNum.uint 0)) none
    (some [("minimum", JVal.num (JNum.uint 0))])

/-- A property whose metadata "type" entry is not a JSON string. -/
def badTypeProp : BaseProperty :=
  BaseProperty.new "weird" JVal.null none (some [("type", JVal.num (JNum.uint 5))])

/-- An integer-typed property with no forwarder. -/
def intProp : BaseProperty :=
  BaseProperty.new "count" (JVal.num (JNum.uint 0)) none
    (some [("type", JVal.str "integer")])

/-! Generic lemmas about the association-list map operations. -/

theorem alGet_update_self {α : Type} (m : List (String × α)) (k : String)
    (f : α → α) : alGet (alUpdate m k f) k = (alGet m k).map f := by
  induction m with
  | nil => rfl
  | cons kv rest ih =>
    obtain ⟨k0, v0⟩ := kv
    simp only [alUpdate]
    by_cases h : k0 = k
    · rw [if_pos h]
      simp [alGet, h]
    · rw [if_neg h]
      simp [alGet, h, ih]

theorem alGet_update_ne {α : Type} (m : List (String × α)) (k k2 : String)
    (f : α → α) (h : k2 ≠ k) : alGet (alUpdate m k f) k2 = alGet m k2 := by
  induction m with
  | nil => rfl
  | cons kv rest ih =>
    obtain ⟨k0, v0⟩ := kv
    simp only [alUpdate]
    by_cases h0 : k0 = k
    · rw [if_pos h0]
      have hne : ¬(k0 = k2) := fun hk => h (hk ▸ h0)
      simp [alGet, hne, ih]
    · rw [if_neg h0]
      simp [alGet, ih]

theorem find?_filter_id_ne (l : List BaseAction) (i : String) :
    (l.filter (fun x => !(x.id == i))).find? (fun a => a.id == i) = none := by
  induction l with
  | nil => rfl
  | cons x xs ih =>
    by_cases h : x.id = i
    · simp [List.filter_cons, h, ih]
    · simp [List.filter_cons, List.find?_cons, h, ih]

theorem find?_map_replace (l : List BaseAction) (i : String) (a a1 : BaseAction)
    (h : l.find? (fun x => x.id == i) = some a) (h1 : a1.id = i) :
    (l.map (fun x => if x.id == i then a1 else x)).find? (fun x => x.id == i)
      = some a1 := by
  induction l with
  | nil => simp [List.find?] at h
  | cons x xs ih =>
    by_cases hx : x.id = i
    · simp [List.find?_cons, hx, h1]
    · rw [List.find?_cons_of_neg _ (by simp [hx])] at h
      simpa [List.find?_cons, hx] using ih h

/-! Theorems settling the claims. -/

/-- C1: the claim says the one-key map returned by as_event_description is
keyed by the event's name. The code (event.rs line 25) inserts the literal key
"name" instead: for the event named "overheated" the description's single key
is "name", and add_event delivers exactly this wrongly-keyed description,
wrapped under "data", to the subscriber of the "overheated" event. -/
theorem C1_event_description_literal_key :
    as_event_description overheatedEvent
      = [("name", JVal.obj [("timestamp", JVal.str "2025-01-01T00:00:00+00:00")])]
    ∧ overheatedEvent.get_name = "overheated"
    ∧ (BaseThing.add_event eventThing overheatedEvent).available_events
      = [("overheated",
          { metadata := []
            subscribers :=
              [("ws1",
                [mkMessage "event"
                  (JVal.obj
                    [("name",
                      JVal.obj
                        [("timestamp",
                          JVal.str "2025-01-01T00:00:00+00:00")])])])] })] :=
  ⟨rfl, rfl, rfl⟩

/-- C3: any value that fails validation against the property's metadata makes
set_value return that Err and leaves the whole property - in particular the
cached value read by get_value - unchanged. -/
theorem C3_set_value_invalid_leaves_cache (p : BaseProperty) (v : JVal) (e : String)
    (h : validate_value p.metadata v = VRes.err e) :
    p.set_value v = (VRes.err e, p) ∧ (p.set_value v).2.get_value = p.get_value := by
  simp only [BaseProperty.set_value, h]
  exact ⟨trivial, trivial⟩

/-- C3 witness: writing the number 5 to the boolean property "on" fails
validation and leaves the property as it was. -/
theorem C3_witness :
    validate_value boolProp.metadata (JVal.num (JNum.uint 5))
      = VRes.err "Value must be a boolean"
    ∧ boolProp.set_value (JVal.num (JNum.uint 5))
      = (VRes.err "Value must be a boolean", boolProp) := by
  have h : validate_value boolProp.metadata (JVal.num (JNum.uint 5))
      = VRes.err "Value must be a boolean" := rfl
  exact ⟨h, (C3_set_value_invalid_leaves_cache boolProp _ _ h).1⟩

/-- C4: the claim says set_value never panics, in particular when "minimum" or
"maximum" is present and the value is not a number, or when the "type" entry
is not a JSON string. The code panics in exactly those cases: with metadata
{"minimum": 0} and the string value "x" the unwrap of value.as_f64() panics
(property.rs line 54), and with metadata {"type": 5} the unwrap of
as_str() panics (property.rs line 19). -/
theorem C4_set_value_panics :
    (minOnlyProp.set_value (JVal.str "x")).1 = VRes.panic
    ∧ (badTypeProp.set_value JVal.null).1 = VRes.panic :=
  ⟨rfl, rfl⟩

/-- C10: with metadata type "integer", set_value rejects every value that is
not serde's u64 number variant with "Value must be an integer" and leaves the
property unchanged; a negative integer is never the u64 variant, so every
negative integer is rejected. -/
theorem C10_integer_rejects_non_u64 (p : BaseProperty) (v : JVal) (i : Int)
    (ht : alGet p.metadata "type" = some (JVal.str "integer"))
    (hv : v.is_u64 = false) :
    p.set_value v = (VRes.err "Value must be an integer", p)
    ∧ (JVal.num (JNum.int i)).is_u64 = false := by
  have hvv : validate_value p.metadata v = VRes.err "Value must be an integer" := by
    simp [validate_value, checkType, alContains, ht, JVal.as_str, hv, vseq]
  simp only [BaseProperty.set_value, hvv]
  exact ⟨trivial, rfl⟩

/-- C10 witness: the integer property rejects -5. -/
theorem C10_witness :
    alGet intProp.metadata "type" = some (JVal.str "integer")
    ∧ (JVal.num (JNum.int (-5))).is_u64 = false
    ∧ intProp.set_value (JVal.num (JNum.int (-5)))
      = (VRes.err "Value must be an integer", intProp) := by
  have h := C10_integer_rejects_non_u64 intProp (JVal.num (JNum.int (-5))) (-5) rfl rfl
  exact ⟨rfl, h.2, h.1⟩

/-- C5: add_event always appends the event to the log and never touches the
main subscriber queues; it enqueues the event notification only when the
event's name is registered among the available events, and then only onto the
queues of that event's subscribers, leaving every other event's entry
unchanged. -/
theorem C5_add_event_log_and_notify (t : BaseThing) (e : BaseEvent) :
    (t.add_event e).events = t.events ++ [e]
    ∧ (t.add_event e).subscribers = t.subscribers
    ∧ (alContains t.available_events e.name = false →
        (t.add_event e).available_events = t.available_events)
    ∧ (∀ ae, alGet t.available_events e.name = some ae →
        alGet (t.add_event e).available_events e.name
          = some { ae with
              subscribers := ae.subscribers.map (fun q => (q.1, q.2 ++
                [mkMessage "event" (JVal.obj (as_event_description e))])) })
    ∧ (∀ n, n ≠ e.name →
        alGet (t.add_event e).available_events n = alGet t.available_events n) := by
  by_cases hc : alContains t.available_events e.name
  · refine ⟨?_, ?_, ?_, ?_, ?_⟩
    · simp [BaseThing.add_event, BaseThing.event_notify, BaseEvent.get_name, hc]
    · simp [BaseThing.add_event, BaseThing.event_notify, BaseEvent.get_name, hc]
    · intro hfalse
      rw [hc] at hfalse
      cases hfalse
    · intro ae hae
      simp [BaseThing.add_event, BaseThing.event_notify, BaseEvent.get_name, hc,
        alGet_update_self, hae]
    · intro n hn
      simp [BaseThing.add_event, BaseThing.event_notify, BaseEvent.get_name, hc,
        alGet_update_ne _ _ _ _ hn]
  · have hcf : alContains t.available_events e.name = false := by
      simpa using hc
    refine ⟨?_, ?_, ?_, ?_, ?_⟩
    · simp [BaseThing.add_event, BaseThing.event_notify, BaseEvent.get_name, hcf]
    · simp [BaseThing.add_event, BaseThing.event_notify, BaseEvent.get_name, hcf]
    · intro _
      simp [BaseThing.add_event, BaseThing.event_notify, BaseEvent.get_name, hcf]
    · intro ae hae
      exact absurd (by simp [alContains, hae]) hc
    · intro n _
      simp [BaseThing.add_event, BaseThing.event_notify, BaseEvent.get_name, hcf]

/-- C5 witness: adding the "overheated" event to the fixture thing appends it
to the log, leaves the main queue alone, and enqueues one event message to the
event's subscriber. -/
theorem C5_witness :
    (eventThing.add_event overheatedEvent).events = [overheatedEvent]
    ∧ (eventThing.add_event overheatedEvent).subscribers = [("main", [])]
    ∧ alGet (eventThing.add_event overheatedEvent).available_events "overheated"
      = some { metadata := []
               subscribers := [("ws1",
                 [mkMessage "event"
                   (JVal.obj (as_event_description overheatedEvent))])] } := by
  have h := C5_add_event_log_and_notify eventThing overheatedEvent
  refine ⟨h.1, h.2.1, ?_⟩
  have h4 := h.2.2.2.1 { metadata := [], subscribers := [("ws1", [])] } rfl
  exact h4

/-- C7: when an action with the given name and id is present, remove_action
invokes cancel on it, removes it, and returns true; a repeated call on the
result returns false and changes nothing, and remove_action for a pair that is
not present returns false and changes nothing. -/
theorem C7_remove_action_once (t : BaseThing) (n i : String) :
    (∀ a, t.get_action n i = some a →
        (t.remove_action n i).1 = true
        ∧ (t.remove_action n i).2.2 = [a]
        ∧ ((t.remove_action n i).2.1).get_action n i = none
        ∧ ((t.remove_action n i).2.1).remove_action n i
            = (false, (t.remove_action n i).2.1, []))
    ∧ (t.get_action n i = none → t.remove_action n i = (false, t, [])) := by
  constructor
  · intro a ha
    have hgone : ((t.remove_action n i).2.1).get_action n i = none := by
      cases hl : alGet t.actions n with
      | none =>
        rw [BaseThing.get_action, hl] at ha
        cases ha
      | some entry =>
        simp only [BaseThing.remove_action, ha]
        simp only [BaseThing.get_action, alGet_update_self, hl, Option.map_some]
        exact find?_filter_id_ne entry i
    refine ⟨?_, ?_, hgone, ?_⟩
    · simp [BaseThing.remove_action, ha]
    · simp [BaseThing.remove_action, ha]
    · generalize hT : (t.remove_action n i).2.1 = t2 at hgone ⊢
      simp [BaseThing.remove_action, hgone]
  · intro ha
    simp [BaseThing.remove_action, ha]

/-- A concrete action, as BaseAction::new builds it. -/
def fadeAction : BaseAction := BaseAction.new "1" "fade" none "2025-01-01T00:00:00+00:00"

/-- A thing owning the fade action, with one main subscriber. -/
def actionThing : BaseThing :=
  { context := "https://iot.mozilla.org/schemas"
    type_ := []
    name := "lamp"
    description := ""
    properties := []
    available_actions := [("fade", { metadata := [] })]
    available_events := []
    actions := [("fade", [fadeAction])]
    events := []
    subscribers := [("ws1", [])]
    href_prefix := ""
    ui_href := none }

/-- C7 witness: removing the fade action succeeds once and the repetition
returns false without change. -/
theorem C7_witness :
    actionThing.get_action "fade" "1" = some fadeAction
    ∧ (actionThing.remove_action "fade" "1").1 = true
    ∧ ((actionThing.remove_action "fade" "1").2.1).get_action "fade" "1" = none
    ∧ ((actionThing.remove_action "fade" "1").2.1).remove_action "fade" "1"
        = (false, (actionThing.remove_action "fade" "1").2.1, []) := by
  have h := (C7_remove_action_once actionThing "fade" "1").1 fadeAction rfl
  exact ⟨rfl, h.1, h.2.2.1, h.2.2.2⟩

/-- Status entry of an action description: the inner object under the given
name, then its "status" field. -/
def descStatus (d : Jobj) (name : String) : Option JVal :=
  (alGet d name).bind (fun inner => inner.getKey "status")

theorem alGet_description_self (a : BaseAction) :
    alGet a.as_action_description a.name = some (JVal.obj a.descInner) := by
  simp [BaseAction.as_action_description, jobjInsert, alGet]

theorem as_action_description_status (a : BaseAction) :
    descStatus a.as_action_description a.name = some (JVal.str a.status) := by
  cases hi : a.input <;> cases hc : a.time_completed <;>
    simp [descStatus, BaseAction.as_action_description, BaseAction.descInner,
      jobjInsert, alGet, JVal.getKey, hi, hc]

theorem start_preserves_id (a : BaseAction) (now : String) :
    ((a.start now).1).id = a.id := rfl

/-- C2: BaseAction::start first moves the action to status "pending" and emits
that very description as its first notification; the move to "completed" -
which also sets time_completed - is exactly the effect of the finish it then
invokes; and BaseThing::start_action drives start on the looked-up action,
writes it back, and enqueues exactly one actionStatus message carrying the
started action's description onto every main subscriber queue
(perform_action, called last, is the default no-op). -/
theorem C2_start_pending_then_finish (a act : BaseAction) (now : String)
    (t : BaseThing) (name id : String)
    (h : t.get_action name id = some act) :
    (a.start now).2
      = [BaseAction.as_action_description { a with status := "pending" },
         BaseAction.as_action_description
           ((BaseAction.finish { a with status := "pending" } now).1)]
    ∧ descStatus (BaseAction.as_action_description { a with status := "pending" })
        a.name = some (JVal.str "pending")
    ∧ (a.start now).1 = (BaseAction.finish { a with status := "pending" } now).1
    ∧ (BaseAction.finish a now).1.status = "completed"
    ∧ (BaseAction.finish a now).1.time_completed = some now
    ∧ (t.start_action name id now).subscribers
        = t.subscribers.map (fun q => (q.1, q.2 ++
            [mkMessage "actionStatus"
              (JVal.obj (BaseAction.as_action_description ((act.start now).1)))]))
    ∧ (t.start_action name id now).get_action name id = some ((act.start now).1) := by
  obtain ⟨entry, hl, hf⟩ : ∃ entry, alGet t.actions name = some entry
      ∧ entry.find? (fun x => x.id == id) = some act := by
    rw [BaseThing.get_action] at h
    cases hl : alGet t.actions name with
    | none => rw [hl] at h; cases h
    | some entry => rw [hl] at h; exact ⟨entry, rfl, h⟩
  have hid : act.id = id := by
    have := List.find?_some hf
    simpa using this
  have hid1 : ((act.start now).1).id = id := by
    rw [start_preserves_id, hid]
  refine ⟨rfl, ?_, rfl, rfl, rfl, ?_, ?_⟩
  · have hs := as_action_description_status { a with status := "pending" }
    simpa using hs
  · simp [BaseThing.start_action, h, BaseThing.updateActionIn,
      BaseThing.action_notify]
  · have hsa : t.start_action name id now
        = (t.updateActionIn name id ((act.start now).1)).action_notify
            (BaseAction.as_action_description ((act.start now).1)) := by
      simp [BaseThing.start_action, h]
    rw [hsa]
    simp only [BaseThing.updateActionIn, BaseThing.action_notify,
      BaseThing.get_action, alGet_update_self, hl, Option.map_some]
    exact find?_map_replace entry id act ((act.start now).1) hf hid1

/-- C2 witness: the lifecycle facts evaluated on the fade fixture. -/
theorem C2_witness :
    actionThing.get_action "fade" "1" = some fadeAction
    ∧ (BaseAction.finish fadeAction "tf").1.status = "completed"
    ∧ (BaseAction.finish fadeAction "tf").1.time_completed = some "tf"
    ∧ descStatus
        (BaseAction.as_action_description { fadeAction with status := "pending" })
        "fade" = some (JVal.str "pending") := by
  have h := C2_start_pending_then_finish fadeAction fadeAction "tf" actionThing
    "fade" "1" rfl
  exact ⟨rfl, h.2.2.2.1, h.2.2.2.2.1, h.2.1⟩

/-- The BaseAction states reachable through the operations the library applies
to an owned action: construction, href-prefix cascade, start and finish. -/
inductive ActionReach : BaseAction → Prop
  | new (id name : String) (input : Option Jobj) (now : String) :
      ActionReach (BaseAction.new id name input now)
  | set_pre {a : BaseAction} (p : String) :
      ActionReach a → ActionReach (a.set_href_prefix p)
  | step_start {a : BaseAction} (now : String) :
      ActionReach a → ActionReach ((a.start now).1)
  | step_finish {a : BaseAction} (now : String) :
      ActionReach a → ActionReach ((a.finish now).1)

theorem actionReach_href (a : BaseAction) (h : ActionReach a) :
    a.href = "/actions/" ++ a.name ++ "/" ++ a.id := by
  induction h with
  | new id name input now => rfl
  | set_pre p _ ih => simpa [BaseAction.set_href_prefix] using ih
  | step_start now _ ih => simpa [BaseAction.start, BaseAction.finish] using ih
  | step_finish now _ ih => simpa [BaseAction.finish] using ih

/-- C6: every action reachable through the library operations has
get_href = href_prefix + "/actions/" + name + "/" + id, and set_href_prefix on
a thing sets its own prefix and cascades it to every owned property and every
owned action. -/
theorem C6_href_invariant_and_cascade :
    (∀ a : BaseAction, ActionReach a →
        a.get_href = a.href_prefix ++ ("/actions/" ++ a.name ++ "/" ++ a.id))
    ∧ (∀ (t : BaseThing) (p : String),
        BaseThing.href_prefix (t.set_href_prefix p) = p
        ∧ (∀ kv, kv ∈ (t.set_href_prefix p).properties →
            BaseProperty.href_prefix kv.2 = p)
        ∧ (∀ kv, kv ∈ (t.set_href_prefix p).actions → ∀ a, a ∈ kv.2 →
            BaseAction.href_prefix a = p)) := by
  constructor
  · intro a h
    rw [BaseAction.get_href, actionReach_href a h]
  · intro t p
    refine ⟨rfl, ?_, ?_⟩
    · intro kv hkv
      simp only [BaseThing.set_href_prefix, List.mem_map] at hkv
      obtain ⟨kv0, _, rfl⟩ := hkv
      rfl
    · intro kv hkv a ha
      simp only [BaseThing.set_href_prefix, List.mem_map] at hkv
      obtain ⟨kv0, _, rfl⟩ := hkv
      simp only [List.mem_map] at ha
      obtain ⟨a0, _, rfl⟩ := ha
      rfl

/-- C6 witness: a freshly constructed action satisfies the href equation. -/
theorem C6_witness :
    (BaseAction.new "123" "fade" none "t0").get_href
      = BaseAction.href_prefix (BaseAction.new "123" "fade" none "t0")
        ++ ("/actions/" ++ "fade" ++ "/" ++ "123") :=
  C6_href_invariant_and_cascade.1 _ (ActionReach.new "123" "fade" none "t0")

/-- C9: when set_property succeeds through a value forwarder, the cache - and
hence get_property - holds the forwarder's returned value, while the
propertyStatus message pushed to every main subscriber queue carries the
caller-supplied value; the two can differ. -/
theorem C9_notify_caller_value (t : BaseThing) (name : String)
    (prop : BaseProperty) (v v2 : JVal) (vf : JVal → Except String JVal)
    (hp : alGet t.properties name = some prop)
    (hvf : prop.value_forwarder = some vf)
    (hok : validate_value prop.metadata v = VRes.ok)
    (hfwd : vf v = Except.ok v2) :
    ∃ t2, t.set_property name v = ThingRes.ok t2
      ∧ t2.get_property name = some v2
      ∧ t2.subscribers = t.subscribers.map (fun q => (q.1, q.2 ++
          [mkMessage "propertyStatus" (JVal.obj [(name, v)])])) := by
  have hset : prop.set_value v = (VRes.ok, { prop with last_value := v2 }) := by
    simp [BaseProperty.set_value, hok, hvf, hfwd]
  refine ⟨BaseThing.property_notify { t with properties := alUpdate t.properties name (fun _ => { prop with last_value := v2 }) } name v, ?_, ?_, ?_⟩
  · simp [BaseThing.set_property, hp, hset]
  · simp [BaseThing.property_notify, BaseThing.get_property, alGet_update_self,
      hp, BaseProperty.get_value]
  · rfl

/-- A forwarder that always maps the property to 50. -/
def clampForwarder : JVal → Except String JVal :=
  fun _ => Except.ok (JVal.num (JNum.uint 50))

/-- A brightness property whose forwarder rewrites every write to 50. -/
def dimProp : BaseProperty :=
  BaseProperty.new "brightness" (JVal.num (JNum.uint 0)) (some clampForwarder) none

/-- A thing owning the brightness property and one main subscriber. -/
def dimThing : BaseThing :=
  { context := "https://iot.mozilla.org/schemas"
    type_ := []
    name := "lamp"
    description := ""
    properties := [("brightness", dimProp)]
    available_actions := []
    available_events := []
    actions := []
    events := []
    subscribers := [("ws1", [])]
    href_prefix := ""
    ui_href := none }

/-- C9 witness: writing 75 notifies 75 but caches 50. -/
theorem C9_witness :
    ∃ t2, dimThing.set_property "brightness" (JVal.num (JNum.uint 75))
        = ThingRes.ok t2
      ∧ t2.get_property "brightness" = some (JVal.num (JNum.uint 50))
      ∧ t2.subscribers = [("ws1",
          [mkMessage "propertyStatus"
            (JVal.obj [("brightness", JVal.num (JNum.uint 75))])])] := by
  obtain ⟨t2, h1, h2, h3⟩ := C9_notify_caller_value dimThing "brightness" dimProp
    (JVal.num (JNum.uint 75)) (JVal.num (JNum.uint 50)) clampForwarder rfl rfl rfl rfl
  exact ⟨t2, h1, h2, h3.trans (by rfl)⟩

/-- The library's BaseActionGenerator: it always returns None. -/
def noneGen : String → Option JVal → Option BaseAction := fun _ _ => none

/-- A generator producing a fresh BaseAction with id "42" for any request. -/
def fadeGen : String → Option JVal → Option BaseAction :=
  fun name _ => some (BaseAction.new "42" name none "t0")

/-- C8 counterexample: a well-formed one-key body {"fade": {}} posted to a
thing that offers "fade", with the library's own BaseActionGenerator (which
returns None), yields 400 and no state change - not the 201 the claim
promises for every one-key body. -/
theorem C8_counterexample :
    actions_handler_POST (some actionThing) noneGen (fun _ _ => true) "t1"
        (JVal.obj [("fade", JVal.obj [])])
      = (HttpResponse.badRequest, some actionThing) := rfl

/-- C8 amended: POST /actions answers 400 with no state change for a
non-object body, a zero-key body or a body of two or more keys; POST
/actions/name additionally 400 when the single key differs from the route
name; a one-key body with matching key dispatches to the shared tail, which
answers 400 with no state change when the generator declines or add_action
rejects, and otherwise adds the action, starts it, and answers 201 with the
action description. -/
theorem C8_post_action_routes (thing : BaseThing)
    (gen : String → Option JVal → Option BaseAction)
    (sv : JVal → Option JVal → Bool) (now : String) :
    (∀ body : JVal, body.is_object = false →
        actions_handler_POST (some thing) gen sv now body
          = (.badRequest, some thing)
        ∧ ∀ nm, action_handler_POST (some thing) (some nm) gen sv now body
            = (.badRequest, some thing))
    ∧ actions_handler_POST (some thing) gen sv now (JVal.obj [])
        = (.badRequest, some thing)
    ∧ (∀ e1 e2 rest, actions_handler_POST (some thing) gen sv now
          (JVal.obj (e1 :: e2 :: rest)) = (.badRequest, some thing))
    ∧ (∀ nm, action_handler_POST (some thing) (some nm) gen sv now (JVal.obj [])
        = (.badRequest, some thing))
    ∧ (∀ nm e1 e2 rest, action_handler_POST (some thing) (some nm) gen sv now
          (JVal.obj (e1 :: e2 :: rest)) = (.badRequest, some thing))
    ∧ (∀ key params nm, key ≠ nm →
        action_handler_POST (some thing) (some nm) gen sv now
          (JVal.obj [(key, params)]) = (.badRequest, some thing))
    ∧ (∀ nm params,
        actions_handler_POST (some thing) gen sv now (JVal.obj [(nm, params)])
          = postActionTail thing gen sv now nm params
        ∧ action_handler_POST (some thing) (some nm) gen sv now
            (JVal.obj [(nm, params)]) = postActionTail thing gen sv now nm params)
    ∧ (∀ nm params, gen nm (params.getKey "input") = none →
        postActionTail thing gen sv now nm params = (.badRequest, some thing))
    ∧ (∀ nm params action e, gen nm (params.getKey "input") = some action →
        thing.add_action sv action (params.getKey "input") = ThingRes.err e →
        postActionTail thing gen sv now nm params = (.badRequest, some thing))
    ∧ (∀ nm params action thing1, gen nm (params.getKey "input") = some action →
        action.name = nm →
        thing.add_action sv action (params.getKey "input") = ThingRes.ok thing1 →
        ∃ d, alGet action.as_action_description nm = some d
          ∧ postActionTail thing gen sv now nm params
              = (.created (JVal.obj [(nm, d)]),
                 some (thing1.start_action nm action.id now))) := by
  refine ⟨?_, rfl, ?_, ?_, ?_, ?_, ?_, ?_, ?_, ?_⟩
  · intro body hb
    cases body with
    | obj fields => simp [JVal.is_object] at hb
    | null => exact ⟨rfl, fun nm => rfl⟩
    | bool b => exact ⟨rfl, fun nm => rfl⟩
    | num n => exact ⟨rfl, fun nm => rfl⟩
    | str s2 => exact ⟨rfl, fun nm => rfl⟩
    | arr xs => exact ⟨rfl, fun nm => rfl⟩
  · intro e1 e2 rest
    obtain ⟨k1, v1⟩ := e1
    obtain ⟨k2, v2⟩ := e2
    rfl
  · intro nm
    rfl
  · intro nm e1 e2 rest
    obtain ⟨k1, v1⟩ := e1
    obtain ⟨k2, v2⟩ := e2
    rfl
  · intro key params nm hne
    simp [action_handler_POST, hne]
  · intro nm params
    exact ⟨rfl, by simp [action_handler_POST]⟩
  · intro nm params hg
    simp [postActionTail, hg]
  · intro nm params action e hg ha
    simp [postActionTail, hg, ha]
  · intro nm params action thing1 hg hname hok
    subst hname
    refine ⟨JVal.obj action.descInner, alGet_description_self action, ?_⟩
    simp [postActionTail, hg, hok, alGet_description_self]

/-- C8 witness: on the fade fixture, a zero-key body gets 400 without change,
a named route with a mismatched key gets 400 without change, and the matching
one-key body takes the success path to 201. -/
theorem C8_witness :
    actions_handler_POST (some actionThing) fadeGen (fun _ _ => true) "t1"
        (JVal.obj []) = (HttpResponse.badRequest, some actionThing)
    ∧ action_handler_POST (some actionThing) (some "fade") fadeGen
        (fun _ _ => true) "t1" (JVal.obj [("dim", JVal.obj [])])
        = (HttpResponse.badRequest, some actionThing)
    ∧ actions_handler_POST (some actionThing) fadeGen (fun _ _ => true) "t1"
        (JVal.obj [("fade", JVal.obj [])])
        = postActionTail actionThing fadeGen (fun _ _ => true) "t1" "fade"
            (JVal.obj []) := by
  obtain ⟨h1, h2, h3, h4, h5, h6, h7, h8, h9, h10⟩ :=
    C8_post_action_routes actionThing fadeGen (fun _ _ => true) "t1"
  exact ⟨h2, h6 "dim" (JVal.obj []) "fade" (by decide),
    (h7 "fade" (JVal.obj [])).1⟩

end WebThing
